import Mathlib

/-!
Shallow embedding of the USB device monitor (src/src/main.rs) in Lean 4,
with theorems checking the natural-language specification against the code.

The program's effectful surroundings (the rusb USB library, process
execution of the external dmesg command) are abstracted as explicit inputs:
a `DeviceModel` records the results the USB library would return for one
device, and the dmesg invocation is an `Option String` (`none` models a
failure to execute the command, `some out` models captured stdout `out`).
All parsing, classification and diff logic is translated directly from the
Rust source.

Rust `String` operations that the source relies on (`contains`,
`to_lowercase`, `lines`, `split`, `trim`, emptiness) are implemented here
over `List Char` so that every definition evaluates by kernel reduction.
-/

/-- `listIsPrefix pat l` is true iff `pat` is a prefix of `l` (over characters). -/
def listIsPrefix : List Char → List Char → Bool
  | [], _ => true
  | _ :: _, [] => false
  | p :: ps, c :: cs => p == c && listIsPrefix ps cs

/-- `listContains l pat` is true iff `pat` occurs contiguously in `l`;
models Rust `str::contains` with a string pattern. -/
def listContains : List Char → List Char → Bool
  | l, pat =>
    match l with
    | [] => pat.isEmpty
    | c :: cs => listIsPrefix pat (c :: cs) || listContains cs pat

/-- `strContains s pat` models Rust `s.contains(pat)`. -/
def strContains (s pat : String) : Bool :=
  listContains s.toList pat.toList

/-- Models Rust `str::to_lowercase` (ASCII-faithful). -/
def strToLower (s : String) : String :=
  String.mk (s.toList.map Char.toLower)

/-- Case-insensitive containment as the source writes it:
`line.to_lowercase().contains(&keyword.to_lowercase())`. -/
def containsCI (line keyword : String) : Bool :=
  strContains (strToLower line) (strToLower keyword)

/-- Splits a character list at every newline character; `n` separators give
`n + 1` segments. -/
def splitOnNL : List Char → List (List Char)
  | [] => [[]]
  | c :: cs =>
    let rest := splitOnNL cs
    if c == '\n' then [] :: rest
    else
      match rest with
      | [] => [[c]]
      | seg :: segs => (c :: seg) :: segs

/-- Drops one trailing carriage return, as Rust `lines` does for `\r\n`. -/
def stripCR (l : List Char) : List Char :=
  match l.getLast? with
  | some c => if c == '\r' then l.dropLast else l
  | none => l

/-- Models Rust `str::lines`: split on `\n`, a final line ending is
optional, and a `\r` preceding a `\n` is removed. -/
def rustLines (s : String) : List String :=
  if s = "" then []
  else
    let parts := splitOnNL s.toList
    if parts.getLast? = some [] then (parts.dropLast.map stripCR).map String.mk
    else (parts.dropLast.map stripCR).map String.mk ++ [String.mk (parts.getLastD [])]

/-- Models Rust `str::trim` (whitespace stripped from both ends). -/
def strTrim (s : String) : String :=
  String.mk (((s.toList.dropWhile Char.isWhitespace).reverse.dropWhile Char.isWhitespace).reverse)

/-- Models Rust `line.split(": ").next().unwrap()`: the text of the line
preceding the first occurrence of `": "` (the whole line when absent). -/
def beforeColonSpace (l : List Char) : List Char :=
  match l with
  | [] => []
  | c :: cs =>
    if listIsPrefix [':', ' '] (c :: cs) then []
    else c :: beforeColonSpace cs

/-- The heuristic risk analyzer, translated from `def_analysis_voltage_and_speed`
in src/src/main.rs. `voltage` is the u16 `max_power_ma`, `speed` the u32
speed in Mbit/s; only comparisons are performed, so `Nat` carries the values. -/
def def_analysis_voltage_and_speed (voltage speed : Nat) : String :=
  if (voltage < 10 ∧ speed > 400) ∨ (voltage > 481 ∧ speed > 10 ∧ speed < 25) ∨
      (voltage ≥ 200 ∧ speed < 2) ∨ (voltage = 100 ∧ speed < 2) then
    "Detection of implantable devices: High confidence"
  else
    "Detection of implantable devices: No confidence"

/-- The USB class-name lookup, translated from `get_class_name` in
src/src/main.rs (the u8 class code is carried as a `Nat`). -/
def get_class_name (class_code : Nat) : String :=
  match class_code with
  | 0x00 => "Interface Defined"
  | 0x01 => "Audio"
  | 0x02 => "Communications and CDC Control"
  | 0x03 => "HID (Human Interface Device)"
  | 0x05 => "Physical"
  | 0x06 => "Image"
  | 0x07 => "Printer"
  | 0x08 => "Mass Storage"
  | 0x09 => "Hub"
  | 0x0A => "CDC-Data"
  | 0x0B => "Smart Card"
  | 0x0D => "Content Security"
  | 0x0E => "Video"
  | 0x0F => "Personal Healthcare"
  | 0x10 => "Audio/Video Devices"
  | 0x11 => "Billboard Device"
  | 0xDC => "Diagnostic Device"
  | 0xE0 => "Wireless Controller"
  | 0xEF => "Miscellaneous"
  | 0xFE => "Application Specific"
  | 0xFF => "Vendor Specific"
  | _ => "Unknown"

/-- The rusb `Speed` enumeration as matched by the source
(`Speed::Low | Full | High | Super | SuperPlus`, with `unknown` standing
for every other variant caught by the `_` arm). -/
inductive USpeed where
  | low
  | full
  | high
  | super
  | superPlus
  | unknown
deriving DecidableEq, Repr

/-- The speed-class-to-Mbit/s table from `get_device_info`
(`match device.speed()` in src/src/main.rs). -/
def speedToMbps (s : USpeed) : Nat :=
  match s with
  | USpeed.low => 1
  | USpeed.full => 12
  | USpeed.high => 480
  | USpeed.super => 5000
  | USpeed.superPlus => 10000
  | USpeed.unknown => 0

/-- The `UsbDeviceInfo` struct from src/src/main.rs (u8/u16/u32 fields
carried as `Nat`). -/
structure UsbDeviceInfo where
  vendor_id : Nat
  product_id : Nat
  manufacturer : String
  product_name : String
  serial_number : String
  max_power_ma : Nat
  speed : Nat
  device_class : Nat
  device_subclass : Nat
  device_protocol : Nat
  num_configurations : Nat
deriving DecidableEq, Repr

/-- The results the USB library returns for one device, abstracted as data:
descriptor fields, the enumerated speed, whether `device.open()` succeeds,
the outcomes of the language-list and string-descriptor reads (`none`
models a failed or timed-out read), and the configuration-descriptor
`max_power` value (`none` models a failed `config_descriptor(0)` read). -/
structure DeviceModel where
  vendor_id : Nat
  product_id : Nat
  device_class : Nat
  device_subclass : Nat
  device_protocol : Nat
  num_configurations : Nat
  speed : USpeed
  manufacturer_string_index : Option Nat
  product_string_index : Option Nat
  serial_number_string_index : Option Nat
  open_ok : Bool
  read_languages : Option (List Nat)
  read_manufacturer_string : Option String
  read_product_string : Option String
  read_serial_number_string : Option String
  config_descriptor_max_power : Option Nat

/-- The device-info extractor, translated from `get_device_info` in
src/src/main.rs. String descriptors are read only when the device opens,
the language list is non-empty, and the descriptor declares a string index
for the field; every failure defaults to an empty string. The max-power
read is independent of opening and uses the raw value with no
multiplication. -/
def get_device_info (d : DeviceModel) : UsbDeviceInfo :=
  let speed := speedToMbps d.speed
  let canReadStrings : Bool := d.open_ok &&
    (match d.read_languages with
     | some languages => !languages.isEmpty
     | none => false)
  let manufacturer :=
    if canReadStrings then
      match d.manufacturer_string_index with
      | some _ => d.read_manufacturer_string.getD ""
      | none => ""
    else ""
  let product_name :=
    if canReadStrings then
      match d.product_string_index with
      | some _ => d.read_product_string.getD ""
      | none => ""
    else ""
  let serial_number :=
    if canReadStrings then
      match d.serial_number_string_index with
      | some _ => d.read_serial_number_string.getD ""
      | none => ""
    else ""
  let max_power_ma :=
    match d.config_descriptor_max_power with
    | some power_units => power_units
    | none => 0
  { vendor_id := d.vendor_id
    product_id := d.product_id
    manufacturer := manufacturer
    product_name := product_name
    serial_number := serial_number
    max_power_ma := max_power_ma
    speed := speed
    device_class := d.device_class
    device_subclass := d.device_subclass
    device_protocol := d.device_protocol
    num_configurations := d.num_configurations }

/-- A snapshot: the entry list of the `HashMap<(u8, u8), UsbDeviceInfo>`
built by `get_device_list`, keyed by (bus number, device address). -/
abbrev Snapshot : Type := List ((Nat × Nat) × UsbDeviceInfo)

/-- Models `HashMap::contains_key` on a snapshot. -/
def snapshotContains (s : Snapshot) (k : Nat × Nat) : Bool :=
  List.any s (fun e => decide (e.1 = k))

/-- One poll-cycle of the main loop's registry logic (src/src/main.rs,
`main`): the keys of current-snapshot entries absent from the previous
snapshot are reported as new, and the previous snapshot is then replaced
by the current one unconditionally. -/
def pollCycle (previous current : Snapshot) : List (Nat × Nat) × Snapshot :=
  ((List.map (fun e => e.1) current).filter (fun k => !(snapshotContains previous k)), current)

/-- The fixed suspicious-keyword array from `def_check_kernel_logs`. -/
def suspiciousKeywords : List String :=
  ["with sunxi_usb_udc", "device reset occurred", "Mfr=0, Product=0"]

/-- The warning produced for a raw-log-line keyword match
(`format!` at src/src/main.rs:293). -/
def rawWarn (keyword line : String) : String :=
  "⚠️ Suspicious keyword \x27" ++ keyword ++ "\x27 found in raw log: " ++ line

/-- The warning produced for a keyword match inside an extracted
device-info value (`format!` at src/src/main.rs:338). -/
def infoWarn (keyword value : String) : String :=
  "⚠️ Suspicious keyword \x27" ++ keyword ++ "\x27 found in: " ++ value

/-- Models `HashMap::insert` on the entry list: replaces the value of an
existing key in place, otherwise appends a new entry. -/
def mapInsert (m : List (String × String)) (k v : String) : List (String × String) :=
  match m with
  | [] => [(k, v)]
  | p :: rest => if p.1 = k then (k, v) :: rest else p :: mapInsert rest k v

/-- Models `HashMap::get` on the entry list. -/
def lookupKV (m : List (String × String)) (k : String) : Option String :=
  match m with
  | [] => none
  | p :: rest => if p.1 = k then some p.2 else lookupKV rest k

/-- One iteration of the structured-extraction loop in
`def_check_kernel_logs` (src/src/main.rs:302-326), on the state
(device-info map, current device key): a line containing both `"new"` and
`"USB device number"` re-establishes the current device key as the trimmed
text preceding `": "`; an `idVendor=`/`idProduct=` line or a
`Manufacturer:`/`Product:`/`SerialNumber:` line is then inserted under a
key derived from the current device key, provided that key is non-empty. -/
def logStep (st : List (String × String) × String) (line : String) :
    List (String × String) × String :=
  let current_device :=
    if strContains line "new" && strContains line "USB device number" then
      strTrim (String.mk (beforeColonSpace line.toList))
    else st.2
  let device_info := st.1
  let device_info :=
    if strContains line "idVendor=" && strContains line "idProduct=" then
      if current_device ≠ "" then
        mapInsert device_info (current_device ++ "_ids") line
      else device_info
    else device_info
  let device_info :=
    if strContains line "Manufacturer:" || strContains line "Product:" ||
        strContains line "SerialNumber:" then
      if current_device ≠ "" then
        let key :=
          if strContains line "Manufacturer:" then "manufacturer"
          else if strContains line "Product:" then "product"
          else "serial"
        mapInsert device_info (current_device ++ "_" ++ key) line
      else device_info
    else device_info
  (device_info, current_device)

/-- The raw-log keyword scan loop of `def_check_kernel_logs`
(src/src/main.rs:289-296): for each line (the caller passes the first 40),
each case-insensitive keyword match pushes one warning. -/
def rawFlagsLoop (ls : List String) : List String :=
  ls.foldl (fun acc line =>
    suspiciousKeywords.foldl (fun acc2 keyword =>
      if containsCI line keyword then acc2 ++ [rawWarn keyword line] else acc2) acc) []

/-- The device-info re-scan loop of `def_check_kernel_logs`
(src/src/main.rs:332-341): each extracted value is re-scanned for the same
keywords, pushing one warning per match. -/
def infoFlagsLoop (info : List (String × String)) : List String :=
  info.foldl (fun acc kv =>
    suspiciousKeywords.foldl (fun acc2 keyword =>
      if containsCI kv.2 keyword then acc2 ++ [infoWarn keyword kv.2] else acc2) acc) []

/-- The device-info map extracted from the whole captured output by the
structured-extraction loop, starting from an empty map and an empty
current-device key. -/
def extractedInfo (out : String) : List (String × String) :=
  ((rustLines out).foldl logStep ([], "")).1

/-- The complete findings list accumulated by `def_check_kernel_logs` on
non-empty output: raw-line warnings over the first 40 lines, followed by
warnings from re-scanning the extracted device-info values. -/
def scannerFlags (out : String) : List String :=
  rawFlagsLoop ((rustLines out).take 40) ++ infoFlagsLoop (extractedInfo out)

/-- The kernel-log scanner, translated from `def_check_kernel_logs` in
src/src/main.rs. The external `sudo dmesg -c` invocation is abstracted as
the `dmesg_output` argument: `none` models a command that failed to
execute, `some out` a successful command with captured stdout `out`. -/
def def_check_kernel_logs (operating_system : String) (dmesg_output : Option String) :
    String × List String :=
  if operating_system = "Linux" then
    match dmesg_output with
    | some log_output =>
      if log_output ≠ "" then
        let device_info := extractedInfo log_output
        let suspicious_flags := scannerFlags log_output
        if device_info ≠ [] then
          if suspicious_flags ≠ [] then
            ("Suspicious USB device detected in kernel logs!", suspicious_flags)
          else
            ("No suspicious signs of usb", suspicious_flags)
        else
          if suspicious_flags ≠ [] then
            ("Suspicious USB activity detected in kernel logs!", suspicious_flags)
          else
            ("USB events detected but no device information extracted", [])
      else ("No USB events found in recent kernel logs", [])
    | none => ("Failed to execute dmesg command", [])
  else if operating_system = "macOS" then
    ("System logs checked for macOS", [])
  else
    ("Unsupported OS for log checking", [])

/-- Spec-side description of the raw-log scan: over the first 40 lines
only, one warning per case-insensitive keyword match, in line-major order. -/
def specRawFindings (ls : List String) : List String :=
  (ls.take 40).flatMap (fun line =>
    suspiciousKeywords.filterMap (fun keyword =>
      if containsCI line keyword then some (rawWarn keyword line) else none))

/-- Spec-side description of the re-scan of extracted values: one warning
per case-insensitive keyword match, in entry-major order. -/
def specInfoFindings (info : List (String × String)) : List String :=
  info.flatMap (fun kv =>
    suspiciousKeywords.filterMap (fun keyword =>
      if containsCI kv.2 keyword then some (infoWarn keyword kv.2) else none))

/-- Spec-side description of the current-device key update: a line
containing both `"new"` and `"USB device number"` sets the key to the
trimmed text preceding `": "`; any other line leaves it unchanged. -/
def newCur (cur line : String) : String :=
  if strContains line "new" && strContains line "USB device number" then
    strTrim (String.mk (beforeColonSpace line.toList))
  else cur

/-- Spec-side description of what one line records, given the current
device key: an `idVendor=`/`idProduct=` line records `(key_ids, line)`, a
`Manufacturer:`/`Product:`/`SerialNumber:` line records the pair under
`key_manufacturer`/`key_product`/`key_serial`; nothing is recorded while
the current device key is empty. -/
def fieldRecords (cur line : String) : List (String × String) :=
  (if strContains line "idVendor=" && strContains line "idProduct=" then
    if cur ≠ "" then [(cur ++ "_ids", line)] else []
  else []) ++
  (if strContains line "Manufacturer:" || strContains line "Product:" ||
      strContains line "SerialNumber:" then
    if cur ≠ "" then
      [(cur ++ "_" ++
        (if strContains line "Manufacturer:" then "manufacturer"
         else if strContains line "Product:" then "product"
         else "serial"), line)]
    else []
  else [])

/-- Spec-side description of every (key, line) recording the extraction
performs over a line list, in order, threading the current-device key. -/
def recPairs : String → List String → List (String × String)
  | _, [] => []
  | cur, line :: rest =>
    let c := newCur cur line
    fieldRecords c line ++ recPairs c rest

/-- The value of the last pair recorded under key `k`, if any. -/
def lastRecordedVal (ps : List (String × String)) (k : String) : Option String :=
  match ps with
  | [] => none
  | p :: rest => Option.or (lastRecordedVal rest k) (if p.1 = k then some p.2 else none)

/-- The class codes the `get_class_name` lookup documents. -/
def knownClassCodes : List Nat :=
  [0x00, 0x01, 0x02, 0x03, 0x05, 0x06, 0x07, 0x08, 0x09, 0x0A, 0x0B, 0x0D,
    0x0E, 0x0F, 0x10, 0x11, 0xDC, 0xE0, 0xEF, 0xFE, 0xFF]

/-- A concrete device whose every library interaction succeeds. -/
def sampleDeviceA : DeviceModel :=
  { vendor_id := 0x1234
    product_id := 0x5678
    device_class := 0x08
    device_subclass := 0x06
    device_protocol := 0x50
    num_configurations := 1
    speed := USpeed.high
    manufacturer_string_index := some 1
    product_string_index := some 2
    serial_number_string_index := some 3
    open_ok := true
    read_languages := some [0x0409]
    read_manufacturer_string := some "Acme"
    read_product_string := some "Disk"
    read_serial_number_string := some "SN01"
    config_descriptor_max_power := some 50 }

/-- A concrete device that fails to open and whose configuration
descriptor cannot be read. -/
def sampleDeviceB : DeviceModel :=
  { vendor_id := 0x1234
    product_id := 0x5678
    device_class := 0x03
    device_subclass := 0x01
    device_protocol := 0x02
    num_configurations := 1
    speed := USpeed.full
    manufacturer_string_index := some 1
    product_string_index := some 2
    serial_number_string_index := some 3
    open_ok := false
    read_languages := some [0x0409]
    read_manufacturer_string := some "Acme"
    read_product_string := some "Key"
    read_serial_number_string := some "SN02"
    config_descriptor_max_power := none }

/-- A concrete snapshot entry for exercising the diff engine. -/
def sampleInfo : UsbDeviceInfo :=
  { vendor_id := 0x1234
    product_id := 0x5678
    manufacturer := "Acme"
    product_name := "Disk"
    serial_number := "SN01"
    max_power_ma := 50
    speed := 480
    device_class := 0x08
    device_subclass := 0x06
    device_protocol := 0x50
    num_configurations := 1 }

/-- C1: `def_analysis_voltage_and_speed` is total over the u16 × u32
domain, returns the high-confidence string iff one of the four rules
holds, and the no-confidence string for every other input pair. -/
theorem c1_heuristic_analyzer (voltage speed : Nat)
    (hv : voltage < 65536) (hs : speed < 4294967296) :
    (def_analysis_voltage_and_speed voltage speed =
        "Detection of implantable devices: High confidence" ↔
      ((voltage < 10 ∧ speed > 400) ∨ (voltage > 481 ∧ 10 < speed ∧ speed < 25) ∨
        (voltage ≥ 200 ∧ speed < 2) ∨ (voltage = 100 ∧ speed < 2))) ∧
    (¬ ((voltage < 10 ∧ speed > 400) ∨ (voltage > 481 ∧ 10 < speed ∧ speed < 25) ∨
        (voltage ≥ 200 ∧ speed < 2) ∨ (voltage = 100 ∧ speed < 2)) →
      def_analysis_voltage_and_speed voltage speed =
        "Detection of implantable devices: No confidence") := by
  unfold def_analysis_voltage_and_speed
  by_cases h : ((voltage < 10 ∧ speed > 400) ∨ (voltage > 481 ∧ speed > 10 ∧ speed < 25) ∨
      (voltage ≥ 200 ∧ speed < 2) ∨ (voltage = 100 ∧ speed < 2))
  · rw [if_pos h]
    exact ⟨iff_of_true rfl h, fun hn => absurd h hn⟩
  · rw [if_neg h]
    exact ⟨iff_of_false (by decide) h, fun _ => rfl⟩

/-- C1 witness: the analyzer at the concrete pair (5, 500) fires rule 1. -/
theorem c1_heuristic_analyzer_witness :
    def_analysis_voltage_and_speed 5 500 =
      "Detection of implantable devices: High confidence" :=
  (c1_heuristic_analyzer 5 500 (by decide) (by decide)).1.mpr (by decide)

/-- C2 counterexample: the claim states the label of class code 0x03 is
exactly "HID", but `get_class_name 0x03` is "HID (Human Interface
Device)". -/
theorem c2_class_name_counterexample : get_class_name 0x03 ≠ "HID" := by
  decide

set_option maxRecDepth 4096 in
/-- C2 (amended): `get_class_name` maps every code in the documented set
to its label — with 0x03 mapping to "HID (Human Interface Device)" — and
every 8-bit code outside the set to "Unknown". -/
theorem c2_class_name_table :
    (∀ c : Nat, c < 256 → c ∉ knownClassCodes → get_class_name c = "Unknown") ∧
    get_class_name 0x00 = "Interface Defined" ∧
    get_class_name 0x01 = "Audio" ∧
    get_class_name 0x02 = "Communications and CDC Control" ∧
    get_class_name 0x03 = "HID (Human Interface Device)" ∧
    get_class_name 0x05 = "Physical" ∧
    get_class_name 0x06 = "Image" ∧
    get_class_name 0x07 = "Printer" ∧
    get_class_name 0x08 = "Mass Storage" ∧
    get_class_name 0x09 = "Hub" ∧
    get_class_name 0x0A = "CDC-Data" ∧
    get_class_name 0x0B = "Smart Card" ∧
    get_class_name 0x0D = "Content Security" ∧
    get_class_name 0x0E = "Video" ∧
    get_class_name 0x0F = "Personal Healthcare" ∧
    get_class_name 0x10 = "Audio/Video Devices" ∧
    get_class_name 0x11 = "Billboard Device" ∧
    get_class_name 0xDC = "Diagnostic Device" ∧
    get_class_name 0xE0 = "Wireless Controller" ∧
    get_class_name 0xEF = "Miscellaneous" ∧
    get_class_name 0xFE = "Application Specific" ∧
    get_class_name 0xFF = "Vendor Specific" := by
  decide

/-- C2 witness: the code 0x04, outside the documented set, resolves to
"Unknown". -/
theorem c2_class_name_table_witness : get_class_name 0x04 = "Unknown" :=
  c2_class_name_table.1 0x04 (by decide) (by decide)

/-- C5: the kernel-log scanner's terminal cases — failed command on
Linux, empty captured output on Linux, the macOS stub, and the
unsupported-platform stub — each return their fixed message with an empty
findings list, independent of any log access. -/
theorem c5_terminal_cases :
    def_check_kernel_logs "Linux" none = ("Failed to execute dmesg command", []) ∧
    def_check_kernel_logs "Linux" (some "") =
      ("No USB events found in recent kernel logs", []) ∧
    (∀ dmesg_output, def_check_kernel_logs "macOS" dmesg_output =
      ("System logs checked for macOS", [])) ∧
    (∀ operating_system dmesg_output, operating_system ≠ "Linux" →
      operating_system ≠ "macOS" →
      def_check_kernel_logs operating_system dmesg_output =
        ("Unsupported OS for log checking", [])) := by
  refine ⟨by decide, by decide, fun d => by simp [def_check_kernel_logs], ?_⟩
  intro os d h1 h2
  simp [def_check_kernel_logs, h1, h2]

/-- C5 witness: a platform string that is neither "Linux" nor "macOS"
yields the unsupported-platform result. -/
theorem c5_terminal_cases_witness :
    def_check_kernel_logs "Windows" none = ("Unsupported OS for log checking", []) :=
  c5_terminal_cases.2.2.2 "Windows" none (by decide) (by decide)

/-- C6: the extractor's speed field is produced by the fixed table
Low→1, Full→12, High→480, Super→5000, SuperPlus→10000, any other class→0. -/
theorem c6_speed_mapping :
    (∀ d : DeviceModel, (get_device_info d).speed = speedToMbps d.speed) ∧
    speedToMbps USpeed.low = 1 ∧
    speedToMbps USpeed.full = 12 ∧
    speedToMbps USpeed.high = 480 ∧
    speedToMbps USpeed.super = 5000 ∧
    speedToMbps USpeed.superPlus = 10000 ∧
    speedToMbps USpeed.unknown = 0 :=
  ⟨fun _ => rfl, rfl, rfl, rfl, rfl, rfl, rfl⟩

/-- C7: the extractor's max-power field is the raw value reported by the
configuration descriptor with no multiplication, and 0 when the
configuration descriptor cannot be read. -/
theorem c7_max_power (d : DeviceModel) :
    ((get_device_info d).max_power_ma = d.config_descriptor_max_power.getD 0) ∧
    (∀ p, d.config_descriptor_max_power = some p →
      (get_device_info d).max_power_ma = p) ∧
    (d.config_descriptor_max_power = none → (get_device_info d).max_power_ma = 0) := by
  have h1 : (get_device_info d).max_power_ma = d.config_descriptor_max_power.getD 0 := by
    cases hc : d.config_descriptor_max_power <;> simp [get_device_info, hc]
  exact ⟨h1, fun p hp => by rw [h1, hp]; rfl, fun hn => by rw [h1, hn]; rfl⟩

/-- C7 witness: a device reporting 50 raw power units yields
`max_power_ma = 50`, with no multiplication. -/
theorem c7_max_power_witness : (get_device_info sampleDeviceA).max_power_ma = 50 :=
  (c7_max_power sampleDeviceA).2.1 50 rfl

/-- C8: in a poll cycle a key is reported as new iff it is present in the
current snapshot and absent from the previous one; the previous snapshot
is replaced by the current one unconditionally; and keys present only in
the previous snapshot are never reported. -/
theorem c8_diff_engine (previous current : Snapshot) (k : Nat × Nat) :
    (k ∈ (pollCycle previous current).1 ↔
      snapshotContains current k = true ∧ snapshotContains previous k = false) ∧
    ((pollCycle previous current).2 = current) ∧
    (snapshotContains previous k = true → snapshotContains current k = false →
      k ∉ (pollCycle previous current).1) := by
  have hiff : k ∈ (pollCycle previous current).1 ↔
      snapshotContains current k = true ∧ snapshotContains previous k = false := by
    simp only [pollCycle, snapshotContains, List.mem_filter, List.mem_map,
      List.any_eq_true, decide_eq_true_eq, Bool.not_eq_true']
  refine ⟨hiff, rfl, ?_⟩
  intro h1 h2 hmem
  rcases hiff.mp hmem with ⟨hc, hp⟩
  rw [h1] at hp
  exact absurd hp (by decide)

/-- C8 witness: with previous snapshot {(1,2) ↦ A} and an empty current
snapshot, no key is reported and the stored snapshot becomes empty. -/
theorem c8_diff_engine_witness :
    (1, 2) ∉ (pollCycle [((1, 2), sampleInfo)] []).1 :=
  (c8_diff_engine [((1, 2), sampleInfo)] [] (1, 2)).2.2 (by rfl) (by rfl)

/-- C9: extraction never propagates an error — if opening fails all three
strings stay empty while max power is still taken from the configuration
descriptor; each string read is attempted only when its descriptor index
is declared; a failed read empties only its own field; and changing one
read's outcome never affects the other fields. -/
theorem c9_error_isolation (d : DeviceModel) :
    (d.open_ok = false →
      (get_device_info d).manufacturer = "" ∧
      (get_device_info d).product_name = "" ∧
      (get_device_info d).serial_number = "" ∧
      (get_device_info d).max_power_ma = d.config_descriptor_max_power.getD 0) ∧
    (d.manufacturer_string_index = none → (get_device_info d).manufacturer = "") ∧
    (d.product_string_index = none → (get_device_info d).product_name = "") ∧
    (d.serial_number_string_index = none → (get_device_info d).serial_number = "") ∧
    (d.read_manufacturer_string = none → (get_device_info d).manufacturer = "") ∧
    (d.read_product_string = none → (get_device_info d).product_name = "") ∧
    (d.read_serial_number_string = none → (get_device_info d).serial_number = "") ∧
    (∀ s, (get_device_info { d with read_manufacturer_string := s }).product_name =
        (get_device_info d).product_name ∧
      (get_device_info { d with read_manufacturer_string := s }).serial_number =
        (get_device_info d).serial_number ∧
      (get_device_info { d with read_product_string := s }).manufacturer =
        (get_device_info d).manufacturer ∧
      (get_device_info { d with read_product_string := s }).serial_number =
        (get_device_info d).serial_number ∧
      (get_device_info { d with read_serial_number_string := s }).manufacturer =
        (get_device_info d).manufacturer ∧
      (get_device_info { d with read_serial_number_string := s }).product_name =
        (get_device_info d).product_name) := by
  obtain ⟨vid, pid, dc, dsc, dp, nc, sp, mi, pi, si, ok, rl, rm, rp, rs, cfg⟩ := d
  refine ⟨?_, ?_, ?_, ?_, ?_, ?_, ?_, ?_⟩
  · intro h
    subst h
    refine ⟨rfl, rfl, rfl, ?_⟩
    cases cfg <;> rfl
  · intro h
    subst h
    simp only [get_device_info]
    split <;> rfl
  · intro h
    subst h
    simp only [get_device_info]
    split <;> rfl
  · intro h
    subst h
    simp only [get_device_info]
    split <;> rfl
  · intro h
    subst h
    simp only [get_device_info]
    split
    · cases mi <;> rfl
    · rfl
  · intro h
    subst h
    simp only [get_device_info]
    split
    · cases pi <;> rfl
    · rfl
  · intro h
    subst h
    simp only [get_device_info]
    split
    · cases si <;> rfl
    · rfl
  · intro s
    exact ⟨rfl, rfl, rfl, rfl, rfl, rfl⟩

/-- C9 witness: a device that fails to open still yields a DeviceInfo
with an empty manufacturer string. -/
theorem c9_error_isolation_witness :
    (get_device_info sampleDeviceB).manufacturer = "" :=
  ((c9_error_isolation sampleDeviceB).1 rfl).1

theorem keywordFold_eq (W : String → String → String) (v : String) (acc : List String) :
    suspiciousKeywords.foldl (fun acc2 keyword =>
      if containsCI v keyword then acc2 ++ [W keyword v] else acc2) acc
    = acc ++ suspiciousKeywords.filterMap (fun keyword =>
        if containsCI v keyword then some (W keyword v) else none) := by
  simp only [suspiciousKeywords, List.foldl_cons, List.foldl_nil, List.filterMap_cons,
    List.filterMap_nil]
  by_cases h1 : containsCI v "with sunxi_usb_udc" <;>
  by_cases h2 : containsCI v "device reset occurred" <;>
  by_cases h3 : containsCI v "Mfr=0, Product=0" <;>
  simp [h1, h2, h3]

theorem rawFlagsLoop_aux (ls : List String) :
    ∀ acc : List String,
    ls.foldl (fun acc line =>
      suspiciousKeywords.foldl (fun acc2 keyword =>
        if containsCI line keyword then acc2 ++ [rawWarn keyword line] else acc2) acc) acc
    = acc ++ ls.flatMap (fun line =>
        suspiciousKeywords.filterMap (fun keyword =>
          if containsCI line keyword then some (rawWarn keyword line) else none)) := by
  induction ls with
  | nil => intro acc; simp
  | cons line ls ih =>
    intro acc
    rw [List.foldl_cons, keywordFold_eq rawWarn line, ih]
    simp [List.append_assoc]

theorem infoFlagsLoop_aux (info : List (String × String)) :
    ∀ acc : List String,
    info.foldl (fun acc kv =>
      suspiciousKeywords.foldl (fun acc2 keyword =>
        if containsCI kv.2 keyword then acc2 ++ [infoWarn keyword kv.2] else acc2) acc) acc
    = acc ++ info.flatMap (fun kv =>
        suspiciousKeywords.filterMap (fun keyword =>
          if containsCI kv.2 keyword then some (infoWarn keyword kv.2) else none)) := by
  induction info with
  | nil => intro acc; simp
  | cons kv info ih =>
    intro acc
    rw [List.foldl_cons, keywordFold_eq infoWarn kv.2, ih]
    simp [List.append_assoc]

theorem logStep_eq (m : List (String × String)) (cur line : String) :
    logStep (m, cur) line =
      ((fieldRecords (newCur cur line) line).foldl (fun acc p => mapInsert acc p.1 p.2) m,
        newCur cur line) := by
  by_cases h1 : (strContains line "new" && strContains line "USB device number") = true <;>
  by_cases h2 : (strContains line "idVendor=" && strContains line "idProduct=") = true <;>
  by_cases h3 : (strContains line "Manufacturer:" || strContains line "Product:" ||
      strContains line "SerialNumber:") = true <;>
  by_cases hE : strTrim (String.mk (beforeColonSpace line.data)) = "" <;>
  by_cases hcur : cur = "" <;>
  simp [logStep, newCur, fieldRecords, h1, h2, h3, hE, hcur,
    List.foldl_cons, List.foldl_nil]

theorem lookupKV_mapInsert (m : List (String × String)) (k v k2 : String) :
    lookupKV (mapInsert m k v) k2 = if k = k2 then some v else lookupKV m k2 := by
  induction m with
  | nil =>
    by_cases hk : k = k2 <;> simp [mapInsert, lookupKV, hk]
  | cons p rest ih =>
    by_cases hp : p.1 = k
    · by_cases hk : k = k2
      · simp [mapInsert, lookupKV, hp, hk]
      · have hpk2 : ¬ (p.1 = k2) := by rw [hp]; exact hk
        simp [mapInsert, lookupKV, hp, hk, hpk2]
    · by_cases hq : p.1 = k2
      · have hk : ¬ (k = k2) := fun h => hp (by rw [h, ← hq])
        have hk2 : ¬ (k2 = k) := fun h => hk h.symm
        simp [mapInsert, lookupKV, hp, hq, hk, hk2]
      · simp [mapInsert, lookupKV, hp, hq, ih]

theorem mem_mapInsert (m : List (String × String)) (k v : String)
    (e : String × String) (h : e ∈ mapInsert m k v) : e ∈ m ∨ e = (k, v) := by
  induction m with
  | nil =>
    simp [mapInsert] at h
    exact Or.inr h
  | cons p rest ih =>
    by_cases hp : p.1 = k
    · simp only [mapInsert, if_pos hp] at h
      rcases List.mem_cons.mp h with he | hm
      · exact Or.inr he
      · exact Or.inl (List.mem_cons_of_mem p hm)
    · simp only [mapInsert, if_neg hp] at h
      rcases List.mem_cons.mp h with he | hm
      · exact Or.inl (he ▸ List.mem_cons_self p rest)
      · rcases ih hm with h1 | h2
        · exact Or.inl (List.mem_cons_of_mem p h1)
        · exact Or.inr h2

theorem lookupKV_insertList (ps : List (String × String)) :
    ∀ (m : List (String × String)) (k : String),
    lookupKV (ps.foldl (fun acc p => mapInsert acc p.1 p.2) m) k
      = Option.or (lastRecordedVal ps k) (lookupKV m k) := by
  induction ps with
  | nil => intro m k; simp [lastRecordedVal]
  | cons p ps ih =>
    intro m k
    rw [List.foldl_cons, ih, lastRecordedVal, lookupKV_mapInsert, Option.or_assoc]
    by_cases hp : p.1 = k <;> simp [hp, Option.or]

theorem mem_insertList (ps : List (String × String)) :
    ∀ (m : List (String × String)) (e : String × String),
    e ∈ ps.foldl (fun acc p => mapInsert acc p.1 p.2) m → e ∈ m ∨ e ∈ ps := by
  induction ps with
  | nil => intro m e h; exact Or.inl h
  | cons p ps ih =>
    intro m e h
    rw [List.foldl_cons] at h
    rcases ih _ e h with h1 | h2
    · rcases mem_mapInsert _ _ _ _ h1 with hm | he
      · exact Or.inl hm
      · exact Or.inr (he ▸ List.mem_cons_self p ps)
    · exact Or.inr (List.mem_cons_of_mem p h2)

theorem lastRecordedVal_append (a b : List (String × String)) (k : String) :
    lastRecordedVal (a ++ b) k = Option.or (lastRecordedVal b k) (lastRecordedVal a k) := by
  induction a with
  | nil => simp [lastRecordedVal]
  | cons p a ih => simp [lastRecordedVal, ih, Option.or_assoc]

theorem lookupKV_extract (ls : List String) :
    ∀ (m : List (String × String)) (cur k : String),
    lookupKV ((ls.foldl logStep (m, cur)).1) k
      = Option.or (lastRecordedVal (recPairs cur ls) k) (lookupKV m k) := by
  induction ls with
  | nil => intro m cur k; simp [recPairs, lastRecordedVal]
  | cons line ls ih =>
    intro m cur k
    rw [List.foldl_cons, logStep_eq, ih, lookupKV_insertList]
    simp only [recPairs, lastRecordedVal_append, Option.or_assoc]

theorem mem_extract (ls : List String) :
    ∀ (m : List (String × String)) (cur : String) (e : String × String),
    e ∈ (ls.foldl logStep (m, cur)).1 → e ∈ m ∨ e ∈ recPairs cur ls := by
  induction ls with
  | nil => intro m cur e h; exact Or.inl h
  | cons line ls ih =>
    intro m cur e h
    rw [List.foldl_cons, logStep_eq] at h
    rcases ih _ _ e h with h1 | h2
    · rcases mem_insertList _ _ _ h1 with hm | hf
      · exact Or.inl hm
      · refine Or.inr ?_
        simp only [recPairs, List.mem_append]
        exact Or.inl hf
    · refine Or.inr ?_
      simp only [recPairs, List.mem_append]
      exact Or.inr h2

theorem lastRecordedVal_of_mem (ps : List (String × String)) (k v : String)
    (h : (k, v) ∈ ps) : ∃ w, lastRecordedVal ps k = some w := by
  induction ps with
  | nil => cases h
  | cons p ps ih =>
    rcases List.mem_cons.mp h with he | hm
    · cases hl : lastRecordedVal ps k with
      | none => exact ⟨v, by simp [lastRecordedVal, hl, ← he, Option.or]⟩
      | some w => exact ⟨w, by simp [lastRecordedVal, hl, Option.or]⟩
    · rcases ih hm with ⟨w, hw⟩
      exact ⟨w, by simp [lastRecordedVal, hw, Option.or]⟩

theorem mem_of_lookupKV (m : List (String × String)) (k w : String)
    (h : lookupKV m k = some w) : (k, w) ∈ m := by
  induction m with
  | nil => simp [lookupKV] at h
  | cons p rest ih =>
    by_cases hp : p.1 = k
    · simp only [lookupKV, if_pos hp] at h
      have : p = (k, w) := by
        obtain ⟨a, b⟩ := p
        simp only at hp
        simp only [Option.some.injEq] at h
        simp [hp, h]
      exact this ▸ List.mem_cons_self p rest
    · simp only [lookupKV, if_neg hp] at h
      exact List.mem_cons_of_mem p (ih h)

/-- C3: on Linux, when the external command succeeds with non-empty
captured output, the scanner's result is classified in priority order on
(records extracted?, findings non-empty?): records and findings give the
suspicious-device message with the findings; records without findings give
the no-suspicious-signs message with an empty list; findings without
records give the suspicious-activity message with the findings; neither
gives the no-device-information message with an empty list. -/
theorem c3_classification (out : String) (h : out ≠ "") :
    (extractedInfo out ≠ [] → scannerFlags out ≠ [] →
      def_check_kernel_logs "Linux" (some out) =
        ("Suspicious USB device detected in kernel logs!", scannerFlags out)) ∧
    (extractedInfo out ≠ [] → scannerFlags out = [] →
      def_check_kernel_logs "Linux" (some out) = ("No suspicious signs of usb", [])) ∧
    (extractedInfo out = [] → scannerFlags out ≠ [] →
      def_check_kernel_logs "Linux" (some out) =
        ("Suspicious USB activity detected in kernel logs!", scannerFlags out)) ∧
    (extractedInfo out = [] → scannerFlags out = [] →
      def_check_kernel_logs "Linux" (some out) =
        ("USB events detected but no device information extracted", [])) := by
  refine ⟨?_, ?_, ?_, ?_⟩ <;> intro h1 h2 <;> simp [def_check_kernel_logs, h, h1, h2]

/-- C3 witness: the non-empty output "x" has no extracted records and no
findings, landing in the fourth classification case. -/
theorem c3_classification_witness :
    def_check_kernel_logs "Linux" (some "x") =
      ("USB events detected but no device information extracted", []) :=
  (c3_classification "x" (by decide)).2.2.2 (by decide) (by decide)

/-- C4: on non-empty output the raw scan tests exactly the first 40 lines
for the three keywords case-insensitively, one formatted warning per
match; every entry of the extracted map is a recorded
(device-key_field, line) pair in the sense of `recPairs`, and every
recorded pair's key appears in the map; and the re-scan emits one warning
per case-insensitive keyword match over the recorded values. -/
theorem c4_scan_and_extraction (out : String) :
    rawFlagsLoop ((rustLines out).take 40) = specRawFindings (rustLines out) ∧
    (∀ k v, (k, v) ∈ extractedInfo out → (k, v) ∈ recPairs "" (rustLines out)) ∧
    (∀ k v, (k, v) ∈ recPairs "" (rustLines out) → ∃ w, (k, w) ∈ extractedInfo out) ∧
    infoFlagsLoop (extractedInfo out) = specInfoFindings (extractedInfo out) := by
  refine ⟨?_, ?_, ?_, ?_⟩
  · have haux := rawFlagsLoop_aux ((rustLines out).take 40) []
    simpa [rawFlagsLoop, specRawFindings] using haux
  · intro k v hm
    rcases mem_extract (rustLines out) [] "" (k, v) hm with h1 | h2
    · cases h1
    · exact h2
  · intro k v hm
    rcases lastRecordedVal_of_mem _ k v hm with ⟨w, hw⟩
    refine ⟨w, mem_of_lookupKV _ k w ?_⟩
    have hx := lookupKV_extract (rustLines out) [] "" k
    rw [show extractedInfo out = ((rustLines out).foldl logStep ([], "")).1 from rfl, hx, hw]
    rfl
  · have haux := infoFlagsLoop_aux (extractedInfo out) []
    simpa [infoFlagsLoop, specInfoFindings] using haux

/-- C4 witness: a two-line log records the idVendor/idProduct line under
the key "usb 1-1_ids" derived from the preceding new-device line. -/
theorem c4_scan_and_extraction_witness :
    ("usb 1-1_ids", "usb 1-1: device descriptor idVendor=1234, idProduct=5678") ∈
      recPairs ""
        (rustLines
          "usb 1-1: new high-speed USB device number 2 using xhci\nusb 1-1: device descriptor idVendor=1234, idProduct=5678") :=
  (c4_scan_and_extraction
      "usb 1-1: new high-speed USB device number 2 using xhci\nusb 1-1: device descriptor idVendor=1234, idProduct=5678").2.1
    "usb 1-1_ids" "usb 1-1: device descriptor idVendor=1234, idProduct=5678" (by decide)

/-- C10: in the structured extraction, the map's value at any key is the
value of the LAST recorded (key, line) pair — later lines overwrite
earlier ones under the same key — and while no "new ... USB device number"
line has been seen, nothing is ever recorded. -/
theorem c10_overwrite_semantics :
    (∀ (out : String) (k : String),
      lookupKV (extractedInfo out) k = lastRecordedVal (recPairs "" (rustLines out)) k) ∧
    (∀ pre : List String,
      (∀ l ∈ pre, (strContains l "new" && strContains l "USB device number") = false) →
      pre.foldl logStep ([], "") = ([], "")) := by
  constructor
  · intro out k
    have hx := lookupKV_extract (rustLines out) [] "" k
    rw [show extractedInfo out = ((rustLines out).foldl logStep ([], "")).1 from rfl, hx]
    simp [lookupKV]
  · intro pre
    induction pre with
    | nil => intro _; rfl
    | cons l pre ih =>
      intro h
      have hl := h l (List.mem_cons_self l pre)
      rw [List.foldl_cons]
      have hstep : logStep ([], "") l = ([], "") := by
        rw [logStep_eq]
        have hcur : newCur "" l = "" := by simp [newCur, hl]
        rw [hcur]
        simp [fieldRecords]
      rw [hstep]
      exact ih (fun x hx => h x (List.mem_cons_of_mem l hx))

/-- C10 witness: a Manufacturer line arriving before any new-device line
is not recorded: the extraction state stays empty. -/
theorem c10_overwrite_semantics_witness :
    List.foldl logStep ([], "") ["Manufacturer: Foo"] = ([], "") :=
  c10_overwrite_semantics.2 ["Manufacturer: Foo"] (by decide)
